import Mathlib

/-!
Verification of the cat-printer device-communication core.

The definitions below are shallow embeddings of the repository's source
functions: the Go worker `catprinter.go`, the Go daemon, the Node CLI
`print.js`, and the Node web server `server.js`.  Bytes are modelled as
`Nat` with explicit `% 256` where the source performs byte truncation;
byte buffers are `List Nat`; fallible code returns `Except`.
-/

namespace Catprinter

/-! ## Command codec (Go `createCommand` / `calculateCRC8`, identical in print.js) -/

/-- The 256-entry CRC-8 lookup table, copied verbatim from `calculateCRC8`
in catprinter.go (the same table appears in print.js as `CRC8_TABLE`). -/
def crc8Table : List Nat :=
  [0x00,0x07,0x0E,0x09,0x1C,0x1B,0x12,0x15,0x38,0x3F,0x36,0x31,0x24,0x23,0x2A,0x2D,
   0x70,0x77,0x7E,0x79,0x6C,0x6B,0x62,0x65,0x48,0x4F,0x46,0x41,0x54,0x53,0x5A,0x5D,
   0xE0,0xE7,0xEE,0xE9,0xFC,0xFB,0xF2,0xF5,0xD8,0xDF,0xD6,0xD1,0xC4,0xC3,0xCA,0xCD,
   0x90,0x97,0x9E,0x99,0x8C,0x8B,0x82,0x85,0xA8,0xAF,0xA6,0xA1,0xB4,0xB3,0xBA,0xBD,
   0xC7,0xC0,0xC9,0xCE,0xDB,0xDC,0xD5,0xD2,0xFF,0xF8,0xF1,0xF6,0xE3,0xE4,0xED,0xEA,
   0xB7,0xB0,0xB9,0xBE,0xAB,0xAC,0xA5,0xA2,0x8F,0x88,0x81,0x86,0x93,0x94,0x9D,0x9A,
   0x27,0x20,0x29,0x2E,0x3B,0x3C,0x35,0x32,0x1F,0x18,0x11,0x16,0x03,0x04,0x0D,0x0A,
   0x57,0x50,0x59,0x5E,0x4B,0x4C,0x45,0x42,0x6F,0x68,0x61,0x66,0x73,0x74,0x7D,0x7A,
   0x89,0x8E,0x87,0x80,0x95,0x92,0x9B,0x9C,0xB1,0xB6,0xBF,0xB8,0xAD,0xAA,0xA3,0xA4,
   0xF9,0xFE,0xF7,0xF0,0xE5,0xE2,0xEB,0xEC,0xC1,0xC6,0xCF,0xC8,0xDD,0xDA,0xD3,0xD4,
   0x69,0x6E,0x67,0x60,0x75,0x72,0x7B,0x7C,0x51,0x56,0x5F,0x58,0x4D,0x4A,0x43,0x44,
   0x19,0x1E,0x17,0x10,0x05,0x02,0x0B,0x0C,0x21,0x26,0x2F,0x28,0x3D,0x3A,0x33,0x34,
   0x4E,0x49,0x40,0x47,0x52,0x55,0x5C,0x5B,0x76,0x71,0x78,0x7F,0x6A,0x6D,0x64,0x63,
   0x3E,0x39,0x30,0x37,0x22,0x25,0x2C,0x2B,0x06,0x01,0x08,0x0F,0x1A,0x1D,0x14,0x13,
   0xAE,0xA9,0xA0,0xA7,0xB2,0xB5,0xBC,0xBB,0x96,0x91,0x98,0x9F,0x8A,0x8D,0x84,0x83,
   0xDE,0xD9,0xD0,0xD7,0xC2,0xC5,0xCC,0xCB,0xE6,0xE1,0xE8,0xEF,0xFA,0xFD,0xF4,0xF3]

/-- `calculateCRC8` from catprinter.go / print.js:
`crc := 0; for each byte b: crc = table[(crc ^ b) & 0xFF]`. -/
def calculateCRC8 (data : List Nat) : Nat :=
  data.foldl (fun crc b => crc8Table.getD ((crc ^^^ b) % 256) 0) 0

/-- `createCommand` from catprinter.go (and print.js, where `cmdId & 0xFF` is
explicit): header `[0x22, 0x21, cmdId, 0x00, len & 0xFF, (len >> 8) & 0xFF]`,
then the payload, then the CRC byte and the trailing `0xFF`. -/
def createCommand (cmdId : Nat) (payload : List Nat) : List Nat :=
  [0x22, 0x21, cmdId % 256, 0x00, payload.length % 256, payload.length / 256 % 256]
    ++ payload ++ [calculateCRC8 payload, 0xFF]

/-- One bit-step of the MSB-first CRC-8 with polynomial 0x07:
shift left one bit (mod 256) and xor in 0x07 when the top bit was set. -/
def crc8Step (c : Nat) : Nat :=
  if c % 256 ≥ 128 then ((c * 2) ^^^ 0x07) % 256 else (c * 2) % 256

/-- The CRC-8 (polynomial 0x07, initial value 0x00) update of a single byte:
eight bit-steps.  Used only as the mathematical reference to check the
precomputed table against. -/
def crc8OfByte (b : Nat) : Nat := crc8Step^[8] (b % 256)

/-- Error type for the codec as the spec describes it. -/
inductive CodecError where
  | PayloadTooLarge
deriving DecidableEq

/-- Modelled from the spec: section 4.1 says `encode(opcode, payload)`
"Fails with `PayloadTooLarge` if payload length exceeds 65535" and otherwise
yields the frame `[0x22,0x21,opcode,0x00,lenLow,lenHigh] ++ payload ++
checksum ++ 0xFF`.  The source `createCommand` has no such failure path;
this definition exists only to compare the code against the spec's words. -/
def encodeSpec (opcode : Nat) (payload : List Nat) : Except CodecError (List Nat) :=
  if payload.length > 65535 then .error .PayloadTooLarge
  else .ok ([0x22, 0x21, opcode % 256, 0x00, payload.length % 256, payload.length / 256 % 256]
    ++ payload ++ [calculateCRC8 payload, 0xFF])

/-! ## Raster encoding (print.js `encode1bppRow` / `prepareImageDataBuffer`,
catprinter.go `encodeImageToBuffer`) -/

/-- Printer raster width in pixels (both sources). -/
def PRINTER_WIDTH : Nat := 384

/-- Bytes per raster row: `PRINTER_WIDTH / 8` (both sources). -/
def PRINTER_WIDTH_BYTES : Nat := PRINTER_WIDTH / 8

/-- Minimum raster buffer size: `90 * PRINTER_WIDTH_BYTES` (both sources). -/
def MIN_DATA_BYTES : Nat := 90 * PRINTER_WIDTH_BYTES

/-- The inner byte-assembly loop of `encode1bppRow` in print.js: for each of
the 8 bits, set bit `bit` (least-significant-first) when
`rowBool[byteIndex * 8 + bit]` is true. -/
def encodeByte (rowBool : List Bool) (byteIndex : Nat) : Nat :=
  (List.range 8).foldl
    (fun byteVal bit =>
      if rowBool.getD (byteIndex * 8 + bit) false then byteVal ||| (1 <<< bit)
      else byteVal)
    0

/-- `encode1bppRow` from print.js: throws (modelled as `Except.error`) when
the row is not exactly `PRINTER_WIDTH` entries long, otherwise packs the 384
booleans into `PRINTER_WIDTH_BYTES` bytes, least-significant bit first. -/
def encode1bppRow (rowBool : List Bool) : Except String (List Nat) :=
  if rowBool.length = PRINTER_WIDTH then
    .ok ((List.range PRINTER_WIDTH_BYTES).map (encodeByte rowBool))
  else .error "Row length must be 384"

/-- The row loop of `prepareImageDataBuffer` in print.js: encode each row in
order and concatenate; a thrown row error propagates out. -/
def encodeRowsAux : List (List Bool) → Except String (List Nat)
  | [] => .ok []
  | row :: rest =>
    match encode1bppRow row with
    | .error e => .error e
    | .ok rowBytes =>
      match encodeRowsAux rest with
      | .error e => .error e
      | .ok restBytes => .ok (rowBytes ++ restBytes)

/-- `prepareImageDataBuffer` from print.js: concatenate the encoded rows,
then zero-pad the buffer at the end up to `MIN_DATA_BYTES` when shorter. -/
def prepareImageDataBuffer (imageRowsBool : List (List Bool)) : Except String (List Nat) :=
  match encodeRowsAux imageRowsBool with
  | .error e => .error e
  | .ok buffer =>
    if buffer.length < MIN_DATA_BYTES then
      .ok (buffer ++ List.replicate (MIN_DATA_BYTES - buffer.length) 0)
    else .ok buffer

/-- The inner byte-assembly loop of `encodeImageToBuffer` in catprinter.go:
bit `bit` of the byte at row `y`, byte column `xByte` is set when
`x := xByte*8 + bit` is inside the image width and the pixel at `(x, y)` is
black (RGB all below 0x8000, abstracted as the predicate `black`). -/
def goEncodeByte (width : Nat) (black : Nat → Nat → Bool) (y xByte : Nat) : Nat :=
  (List.range 8).foldl
    (fun b bit =>
      if xByte * 8 + bit < width && black (xByte * 8 + bit) y then b ||| (1 <<< bit)
      else b)
    0

/-- The row loop of `encodeImageToBuffer` in catprinter.go before padding:
for each image row y, emit `PRINTER_WIDTH_BYTES` bytes regardless of the
image width (missing columns contribute zero bits). -/
def goRows (width height : Nat) (black : Nat → Nat → Bool) : List Nat :=
  ((List.range height).map
    (fun y => (List.range PRINTER_WIDTH_BYTES).map (goEncodeByte width black y))).flatten

/-- `encodeImageToBuffer` from catprinter.go (also in the daemon source):
emit `PRINTER_WIDTH_BYTES` bytes per image row, then zero-pad the buffer to
`MIN_DATA_BYTES`.  The image is abstracted to its width, height and a
black-pixel predicate. -/
def encodeImageToBuffer (width height : Nat) (black : Nat → Nat → Bool) : List Nat :=
  if (goRows width height black).length < MIN_DATA_BYTES then
    goRows width height black
      ++ List.replicate (MIN_DATA_BYTES - (goRows width height black).length) 0
  else goRows width height black

/-! ## Transfer sequences (Go daemon `PrintImage`, print.js `connectAndPrint`)

The BLE link is abstracted by an oracle `ok : Nat → Bool` giving the result
of the n-th logical device write of the run (in the daemon each logical
write is one `writeWithRetry` call, whose internal retries are modelled
separately below).  Each model returns the list of writes actually issued,
in order, together with the surfaced outcome. -/

/-- A device capability endpoint: the control characteristic (ae01) or the
data characteristic (ae03). -/
inductive Endpoint where
  | control
  | data
deriving DecidableEq, Repr

/-- One write issued to the device. -/
structure WriteOp where
  ep : Endpoint
  bytes : List Nat
deriving DecidableEq, Repr

/-- A sequence of writes with early exit on the first failure (the common
`if err != nil return` / thrown-promise pattern of both transfer loops):
returns the writes issued (the failing one included), whether all succeeded,
and the next oracle index. -/
def streamWrites (ok : Nat → Bool) : Nat → List WriteOp → List WriteOp × Bool × Nat
  | k, [] => ([], true, k)
  | k, w :: ws =>
    if ok k then
      let r := streamWrites ok (k + 1) ws
      (w :: r.1, r.2.1, r.2.2)
    else ([w], false, k + 1)

/-- The outer data loop of the Go sources: the buffer is cut into rows of
`PRINTER_WIDTH_BYTES` bytes (`for i := 0; i < len(buffer); i += 48`). -/
def rows48 (l : List Nat) : List (List Nat) :=
  if h : l = [] then []
  else l.take PRINTER_WIDTH_BYTES :: rows48 (l.drop PRINTER_WIDTH_BYTES)
termination_by l.length
decreasing_by
  have h0 : 0 < l.length := List.length_pos.mpr h
  have hw : PRINTER_WIDTH_BYTES = 48 := rfl
  simp only [List.length_drop, hw]
  omega

/-- The inner data loop of the Go sources: one 48-byte row is written in
sub-chunks `row[0:20]`, `row[20:40]`, `row[40:48]`
(`for j := 0; j < 48; j += 20` with `end = min(j+20, 48)`). -/
def rowSubChunks (row : List Nat) : List (List Nat) :=
  [row.take 20, (row.drop 20).take 20, (row.drop 40).take 8]

/-- The data loop of print.js `connectAndPrint`: the buffer is written in
244-byte slices (`for i = 0; i < imageBuffer.length; i += 244`). -/
def chunks244 (l : List Nat) : List (List Nat) :=
  if h : l = [] then []
  else l.take 244 :: chunks244 (l.drop 244)
termination_by l.length
decreasing_by
  have h0 : 0 < l.length := List.length_pos.mpr h
  simp only [List.length_drop]
  omega

/-- The data-endpoint writes of `PrinterDaemon.PrintImage`: the buffer cut
into 48-byte rows, each row written in the three sub-chunks of
`rowSubChunks`. -/
def printImageDataOps (buffer : List Nat) : List WriteOp :=
  ((rows48 buffer).map
    (fun row => (rowSubChunks row).map (fun c => (⟨.data, c⟩ : WriteOp)))).flatten

/-- `PrinterDaemon.PrintImage` from the Go daemon, write sequence only:
set intensity (`0xA2`, payload `[0xA0]`), print request (`0xA9`, payload
row count little-endian plus `0x30 0x00`), the raster buffer in ≤20-byte
sub-chunks on the data endpoint, then flush (`0xAD`, payload `[0x00]`).
Every failing write returns the corresponding error immediately and no
later write is issued. -/
def printImage (ok : Nat → Bool) (numRows : Nat) (buffer : List Nat) :
    List WriteOp × Except String Unit :=
  if ok 0 = false then
    ([⟨.control, createCommand 0xA2 [0xA0]⟩], .error "failed to write set intensity")
  else if ok 1 = false then
    ([⟨.control, createCommand 0xA2 [0xA0]⟩,
      ⟨.control, createCommand 0xA9 [numRows % 256, numRows / 256 % 256, 0x30, 0x00]⟩],
     .error "failed to write print request")
  else
    match streamWrites ok 2 (printImageDataOps buffer) with
    | (trace, success, next) =>
      if success then
        if ok next = false then
          ([⟨.control, createCommand 0xA2 [0xA0]⟩,
            ⟨.control, createCommand 0xA9 [numRows % 256, numRows / 256 % 256, 0x30, 0x00]⟩]
              ++ trace ++ [⟨.control, createCommand 0xAD [0x00]⟩],
           .error "failed to write flush")
        else
          ([⟨.control, createCommand 0xA2 [0xA0]⟩,
            ⟨.control, createCommand 0xA9 [numRows % 256, numRows / 256 % 256, 0x30, 0x00]⟩]
              ++ trace ++ [⟨.control, createCommand 0xAD [0x00]⟩],
           .ok ())
      else
        ([⟨.control, createCommand 0xA2 [0xA0]⟩,
          ⟨.control, createCommand 0xA9 [numRows % 256, numRows / 256 % 256, 0x30, 0x00]⟩]
            ++ trace,
         .error "failed to write image data sub-chunk")

/-- `connectAndPrint` from print.js, write sequence only: prepare the raster
buffer (a row-width error propagates before any device write), then set
intensity (`0xA2`, payload `[0x5D]`), then the raster buffer in 244-byte
chunks on the data endpoint, then the print request (`0xA9`).  No flush
command is sent.  A failing write rejects immediately. -/
def connectAndPrint (ok : Nat → Bool) (imageRows : List (List Bool)) :
    List WriteOp × Except String Unit :=
  match prepareImageDataBuffer imageRows with
  | .error e => ([], .error e)
  | .ok imageBuffer =>
    if ok 0 = false then
      ([⟨.control, createCommand 0xA2 [0x5D]⟩], .error "write failed")
    else
      match streamWrites ok 1 ((chunks244 imageBuffer).map
          (fun c => (⟨.data, c⟩ : WriteOp))) with
      | (trace, success, next) =>
        if success then
          if ok next = false then
            (⟨.control, createCommand 0xA2 [0x5D]⟩ ::
              (trace ++
                [⟨.control, createCommand 0xA9
                  [imageRows.length % 256, imageRows.length / 256 % 256, 0x30, 0x00]⟩]),
             .error "write failed")
          else
            (⟨.control, createCommand 0xA2 [0x5D]⟩ ::
              (trace ++
                [⟨.control, createCommand 0xA9
                  [imageRows.length % 256, imageRows.length / 256 % 256, 0x30, 0x00]⟩]),
             .ok ())
        else (⟨.control, createCommand 0xA2 [0x5D]⟩ :: trace, .error "write failed")

/-- The full (every write succeeding) daemon transfer sequence. -/
def printImageFullOps (numRows : Nat) (buffer : List Nat) : List WriteOp :=
  ⟨.control, createCommand 0xA2 [0xA0]⟩ ::
  ⟨.control, createCommand 0xA9 [numRows % 256, numRows / 256 % 256, 0x30, 0x00]⟩ ::
  (printImageDataOps buffer ++ [⟨.control, createCommand 0xAD [0x00]⟩])

/-- The command order claimed by the spec for a transfer of `numRows` rows:
one set-intensity command, then the print request carrying the row count
little-endian plus the two mode bytes, then data-endpoint chunks, then the
flush command. -/
def ClaimedTransferOrder (numRows : Nat) (t : List WriteOp) : Prop :=
  ∃ (intensityByte : Nat) (chunks : List (List Nat)),
    t = ⟨.control, createCommand 0xA2 [intensityByte]⟩ ::
        ⟨.control, createCommand 0xA9 [numRows % 256, numRows / 256 % 256, 0x30, 0x00]⟩ ::
        (chunks.map (fun c => (⟨.data, c⟩ : WriteOp)) ++
          [⟨.control, createCommand 0xAD [0x00]⟩])

/-! ## Connection and write retry (Go daemon `ensureConnected` / `writeWithRetry`)

`connOk i` is the result of the i-th `Connect()` attempt; `writeOk i` and
`reconOk i` are the results of the i-th raw characteristic write and of the
`ensureConnected()` forced after it.  Delays are recorded in milliseconds. -/

/-- Result of one `ensureConnected` call: connection attempts made, pauses
taken (ms), surfaced outcome, and whether the daemon ends up connected. -/
structure EnsureResult where
  attempts : Nat
  pauses : List Nat
  result : Except String Unit
  connected : Bool
deriving Repr

/-- The retry loop of `ensureConnected`: `for i := 0; i < maxRetries; i++`
with `time.Sleep(2s)` after every failed attempt except the last.
`left` counts the attempts still available (initially `maxRetries = 3`). -/
def connectLoop (connOk : Nat → Bool) : Nat → Nat → Nat × List Nat × Bool
  | _, 0 => (0, [], false)
  | i, left + 1 =>
    if connOk i then (1, [], true)
    else if left > 0 then
      let r := connectLoop connOk (i + 1) left
      (r.1 + 1, 2000 :: r.2.1, r.2.2)
    else (1, [], false)

/-- `PrinterDaemon.ensureConnected` from the Go daemon: when already
connected, a status-probe write (`0xA1`) decides liveness; a healthy link
returns at once, otherwise the daemon disconnects and runs the 3-attempt
connect loop, surfacing "failed to connect after 3 attempts" when every
attempt fails. -/
def ensureConnected (wasConnected testOk : Bool) (connOk : Nat → Bool) : EnsureResult :=
  if wasConnected && testOk then ⟨0, [], .ok (), true⟩
  else
    let r := connectLoop connOk 0 3
    if r.2.2 then ⟨r.1, r.2.1, .ok (), true⟩
    else ⟨r.1, r.2.1, .error "failed to connect after 3 attempts", false⟩

/-- One event inside `writeWithRetry`. -/
inductive RetryEvent where
  | writeAttempt (ok : Bool)
  | reconnect
  | pause (ms : Nat)
deriving DecidableEq, Repr

/-- The loop of `PrinterDaemon.writeWithRetry`: up to `left` more write
attempts (initially `maxRetries = 3`); after a failed attempt that is not
the last, `ensureConnected()` is forced (result `reconOk i`; its failure
returns "failed to reconnect" immediately) and 1s is slept before the next
attempt.  Exhausting the attempts surfaces
"failed to write after 3 attempts". -/
def writeRetryLoop (writeOk reconOk : Nat → Bool) :
    Nat → Nat → List RetryEvent × Except String Unit
  | _, 0 => ([], .error "failed to write after 3 attempts")
  | i, left + 1 =>
    if writeOk i then ([.writeAttempt true], .ok ())
    else if left > 0 then
      if reconOk i then
        let r := writeRetryLoop writeOk reconOk (i + 1) left
        (.writeAttempt false :: .reconnect :: .pause 1000 :: r.1, r.2)
      else ([.writeAttempt false, .reconnect], .error "failed to reconnect")
    else ([.writeAttempt false], .error "failed to write after 3 attempts")

/-- `PrinterDaemon.writeWithRetry` from the Go daemon (events and outcome). -/
def writeWithRetry (writeOk reconOk : Nat → Bool) : List RetryEvent × Except String Unit :=
  writeRetryLoop writeOk reconOk 0 3

/-- Number of raw write attempts in a `writeWithRetry` event list. -/
def countWriteAttempts (events : List RetryEvent) : Nat :=
  events.countP (fun e => match e with | .writeAttempt _ => true | _ => false)

/-! ## Web server print queue (server.js)

`processPrintQueue` and its child-exit handler are embedded as transition
functions on the server state; the HTTP `/print` handler is embedded as
`handlePrint`.  Job identities are natural numbers; `active` lists the
print processes currently running (spawned and not yet closed). -/

/-- Mutable server state of server.js: the `isPrinting` flag, the
`printQueue` array, and the set of spawned print processes still running. -/
structure QueueState where
  isPrinting : Bool
  printQueue : List Nat
  active : List Nat
deriving DecidableEq, Repr

/-- The initial server state: nothing printing, empty queue. -/
def initialQueueState : QueueState := ⟨false, [], []⟩

/-- The synchronous part of `processPrintQueue` (server.js lines 79-87):
return unchanged when `isPrinting` is set or the queue is empty; otherwise
set `isPrinting`, shift the first queued job and spawn it. -/
def processPrintQueue (s : QueueState) : QueueState :=
  match s.printQueue with
  | [] => s
  | j :: rest =>
    if s.isPrinting then s
    else ⟨true, rest, j :: s.active⟩

/-- Result of the `close` handler of a queued print process: state once the
scheduled timeout has fired, HTTP response status sent to the submitter (if
any), cooldown before the next dequeue (ms), and whether a Bluetooth
service restart was attempted. -/
structure CloseResult where
  state : QueueState
  response : Option Nat
  cooldownMs : Nat
  bluetoothReset : Bool
deriving DecidableEq, Repr

/-- The `printProcess.on('close', ...)` handler of `processPrintQueue`
(server.js lines 96-130): exit code 0 answers 200 and schedules the next
dequeue after 3s; exit code 1 spawns `systemctl restart bluetooth`,
schedules the next dequeue after 15s and returns without sending any
response; any other exit code answers 500 and schedules after 3s. -/
def onPrintClose (s : QueueState) (j : Nat) (code : Nat) : CloseResult :=
  let cleared : QueueState := ⟨false, s.printQueue, s.active.erase j⟩
  if code = 0 then ⟨cleared, some 200, 3000, false⟩
  else if code = 1 then ⟨cleared, none, 15000, true⟩
  else ⟨cleared, some 500, 3000, false⟩

/-- The HTTP `/print` handler of server.js (lines 171-299): both the
image branch (a direct request to the Go daemon) and the text branch (a
direct `spawn('node', ['print.js', ...])`) start the print job immediately;
neither pushes to `printQueue` nor consults `isPrinting`. -/
def handlePrint (s : QueueState) (j : Nat) : QueueState :=
  ⟨s.isPrinting, s.printQueue, j :: s.active⟩

/-! ## Helper lemmas and claim theorems -/

set_option maxRecDepth 4000 in
/-- The published table is exactly the CRC-8 polynomial-0x07 update applied
to each of the 256 byte values. -/
lemma crc8Table_eq_map : crc8Table = (List.range 256).map crc8OfByte := by decide

/-- The frame built by `createCommand` is always 8 bytes longer than its
payload: 6 header bytes plus CRC byte plus trailing 0xFF. -/
lemma createCommand_length (op : Nat) (payload : List Nat) :
    (createCommand op payload).length = payload.length + 8 := by
  simp [createCommand]

/-- Claim C1: for every opcode byte and every payload of length at most
65535, `createCommand opcode payload` is exactly the frame
`[0x22, 0x21, opcode, 0x00, lenLow, lenHigh] ++ payload ++ crc ++ [0xFF]`
of total length `payload.length + 8`, where `lenLow`/`lenHigh` are the
little-endian payload length and `crc` is the table-driven CRC-8
(polynomial 0x07, initial value 0x00, 256-entry table) of the payload
bytes only; the CRC of the payload `[0x00]` is the table's entry 0. -/
theorem createCommand_frame_spec (op : Nat) (payload : List Nat)
    (hop : op < 256) (hlen : payload.length ≤ 65535) :
    createCommand op payload =
      [0x22, 0x21, op, 0x00, payload.length % 256, payload.length / 256]
        ++ payload ++ [calculateCRC8 payload, 0xFF]
    ∧ (createCommand op payload).length = payload.length + 8
    ∧ payload.length % 256 + 256 * (payload.length / 256) = payload.length
    ∧ crc8Table = (List.range 256).map crc8OfByte
    ∧ calculateCRC8 [0x00] = crc8Table.getD 0 0 := by
  refine ⟨?_, ?_, ?_, crc8Table_eq_map, ?_⟩
  · simp only [createCommand, Nat.mod_eq_of_lt hop]
    have h2 : payload.length / 256 % 256 = payload.length / 256 :=
      Nat.mod_eq_of_lt (by omega)
    rw [h2]
  · simp [createCommand]
  · omega
  · decide

/-- Witness for C1 at opcode 0xA2 and payload `[0xA0]` (the set-intensity
command actually sent by the daemon). -/
theorem createCommand_frame_spec_witness :
    createCommand 0xA2 [0xA0] =
      [0x22, 0x21, 0xA2, 0x00, 1 % 256, 1 / 256]
        ++ [0xA0] ++ [calculateCRC8 [0xA0], 0xFF]
    ∧ (createCommand 0xA2 [0xA0]).length = 1 + 8
    ∧ 1 % 256 + 256 * (1 / 256) = 1
    ∧ crc8Table = (List.range 256).map crc8OfByte
    ∧ calculateCRC8 [0x00] = crc8Table.getD 0 0 := by
  have h := createCommand_frame_spec 0xA2 [0xA0] (by decide) (by decide)
  simpa using h

/-- Counterexample to claim C7: on the 65536-byte payload the code's
`createCommand` produces a normal frame (of length 65544), whereas the
spec-modelled encoder rejects the payload with `PayloadTooLarge`; the code
therefore does not fail on oversized payloads. -/
theorem createCommand_no_reject_counterexample :
    Except.ok (createCommand 0xA2 (List.replicate 65536 0))
      ≠ encodeSpec 0xA2 (List.replicate 65536 0)
    ∧ (createCommand 0xA2 (List.replicate 65536 0)).length = 65544 := by
  have hlen : (List.replicate 65536 (0 : Nat)).length = 65536 :=
    List.length_replicate 65536 0
  constructor
  · have h : encodeSpec 0xA2 (List.replicate 65536 0) = .error .PayloadTooLarge := by
      unfold encodeSpec
      rw [if_pos (by rw [hlen]; omega)]
    rw [h]
    intro hc
    exact Except.noConfusion hc
  · rw [createCommand_length, hlen]

/-- Claim C7 as amended: for every payload longer than 65535 bytes,
`createCommand` does not fail: it still returns a full frame of length
`payload.length + 8`, while the spec-modelled encoder `encodeSpec` rejects
the same payload with `PayloadTooLarge`, so the code disagrees with the
spec's rejection requirement on every such payload. -/
theorem createCommand_oversized_no_failure (op : Nat) (payload : List Nat)
    (hlen : payload.length > 65535) :
    (createCommand op payload).length = payload.length + 8
    ∧ encodeSpec op payload = .error .PayloadTooLarge
    ∧ Except.ok (createCommand op payload) ≠ encodeSpec op payload := by
  have hspec : encodeSpec op payload = .error .PayloadTooLarge := by
    unfold encodeSpec
    rw [if_pos hlen]
  refine ⟨createCommand_length op payload, hspec, ?_⟩
  rw [hspec]
  intro hc
  exact Except.noConfusion hc

/-- Witness for the amended C7 at a concrete 65536-byte payload. -/
theorem createCommand_oversized_no_failure_witness :
    (createCommand 0xA9 (List.replicate 65536 1)).length
        = (List.replicate 65536 (1 : Nat)).length + 8
    ∧ encodeSpec 0xA9 (List.replicate 65536 1) = .error .PayloadTooLarge
    ∧ Except.ok (createCommand 0xA9 (List.replicate 65536 1))
        ≠ encodeSpec 0xA9 (List.replicate 65536 1) :=
  createCommand_oversized_no_failure 0xA9 (List.replicate 65536 1)
    (by rw [List.length_replicate]; omega)

/-- Claim C10: for every payload longer than 65535 bytes, `createCommand`
still produces a frame without signalling any error, and the two embedded
length bytes are the low and high byte of the payload length reduced
modulo 2^16, so the declared length no longer matches the actual payload
length. -/
theorem createCommand_oversized_truncates (op : Nat) (payload : List Nat)
    (hop : op < 256) (hlen : payload.length > 65535) :
    createCommand op payload =
      [0x22, 0x21, op, 0x00, payload.length % 256, payload.length / 256 % 256]
        ++ payload ++ [calculateCRC8 payload, 0xFF]
    ∧ payload.length % 256 = payload.length % 65536 % 256
    ∧ payload.length / 256 % 256 = payload.length % 65536 / 256
    ∧ payload.length % 256 + 256 * (payload.length / 256 % 256) ≠ payload.length := by
  refine ⟨?_, by omega, by omega, by omega⟩
  simp only [createCommand, Nat.mod_eq_of_lt hop]

/-- Witness for C10 at a concrete 65536-byte payload: the declared length
bytes read 0. -/
theorem createCommand_oversized_truncates_witness :
    createCommand 0xAD (List.replicate 65536 7) =
      [0x22, 0x21, 0xAD, 0x00, (List.replicate 65536 (7 : Nat)).length % 256,
        (List.replicate 65536 (7 : Nat)).length / 256 % 256]
        ++ List.replicate 65536 7 ++ [calculateCRC8 (List.replicate 65536 7), 0xFF]
    ∧ (List.replicate 65536 (7 : Nat)).length % 256
        = (List.replicate 65536 (7 : Nat)).length % 65536 % 256
    ∧ (List.replicate 65536 (7 : Nat)).length / 256 % 256
        = (List.replicate 65536 (7 : Nat)).length % 65536 / 256
    ∧ (List.replicate 65536 (7 : Nat)).length % 256
        + 256 * ((List.replicate 65536 (7 : Nat)).length / 256 % 256)
        ≠ (List.replicate 65536 (7 : Nat)).length :=
  createCommand_oversized_truncates 0xAD (List.replicate 65536 7)
    (by decide) (by rw [List.length_replicate]; omega)


lemma foldl_congr_mem {α β : Type} (l : List α) (f g : β → α → β) (a : β)
    (h : ∀ b x, x ∈ l → f b x = g b x) : l.foldl f a = l.foldl g a := by
  induction l generalizing a with
  | nil => rfl
  | cons x xs ih =>
    simp only [List.foldl_cons]
    rw [h a x (by simp)]
    exact ih (g a x) (fun b y hy => h b y (by simp [hy]))

lemma foldl_keep {α β : Type} (l : List α) (a : β) : l.foldl (fun v _ => v) a = a := by
  induction l generalizing a with
  | nil => rfl
  | cons x xs ih => simpa using ih a

lemma foldl_orBit_testBit (c : Nat → Bool) (k i : Nat) :
    ((List.range k).foldl (fun v bit => if c bit then v ||| (1 <<< bit) else v) 0).testBit i
      = (decide (i < k) && c i) := by
  induction k with
  | zero => simp
  | succ k ih =>
    rw [List.range_succ, List.foldl_append]
    simp only [List.foldl_cons, List.foldl_nil]
    by_cases hc : c k
    · rw [if_pos hc, Nat.testBit_lor, ih, Nat.one_shiftLeft]
      by_cases hik : i = k
      · subst hik
        simp [Nat.testBit_two_pow_self, hc, Nat.lt_succ_self]
      · rw [Nat.testBit_two_pow_of_ne (fun hk => hik hk.symm)]
        have hd : (decide (i < k + 1) : Bool) = decide (i < k) :=
          decide_eq_decide.mpr (by omega)
        rw [Bool.or_false, hd]
    · rw [if_neg hc, ih]
      by_cases hik : i = k
      · subst hik
        have hcf : c i = false := by
          cases hcc : c i
          · rfl
          · exact absurd hcc hc
        simp [hcf]
      · have hd : (decide (i < k + 1) : Bool) = decide (i < k) :=
          decide_eq_decide.mpr (by omega)
        rw [hd]

lemma encodeByte_testBit (row : List Bool) (b i : Nat) :
    (encodeByte row b).testBit i = (decide (i < 8) && row.getD (b * 8 + i) false) :=
  foldl_orBit_testBit (fun bit => row.getD (b * 8 + bit) false) 8 i

lemma getD_replicate_self {α : Type} (n i : Nat) (a : α) :
    (List.replicate n a).getD i a = a := by
  rw [List.getD_eq_getElem?_getD]
  rcases Nat.lt_or_ge i n with h | h
  · simp [List.getElem?_replicate, h]
  · simp only [List.getElem?_replicate]
    rw [if_neg (by omega)]
    rfl

lemma getD_zero_of_le (l : List Nat) (i : Nat) (h : l.length ≤ i) : l.getD i 0 = 0 := by
  rw [List.getD_eq_getElem?_getD, List.getElem?_eq_none h]
  rfl

lemma encodeByte_allFalse (n b : Nat) : encodeByte (List.replicate n false) b = 0 := by
  unfold encodeByte
  have hcongr := foldl_congr_mem (List.range 8)
    (fun byteVal bit =>
      if (List.replicate n false).getD (b * 8 + bit) false then byteVal ||| (1 <<< bit)
      else byteVal)
    (fun v _ => v) 0
    (fun acc x _ => by simp [getD_replicate_self])
  rw [hcongr, foldl_keep]

lemma getD_range_map (f : Nat → Nat) (n i d : Nat) (h : i < n) :
    ((List.range n).map f).getD i d = f i := by
  rw [List.getD_eq_getElem?_getD, List.getElem?_map, List.getElem?_range h]
  rfl

lemma encode1bppRow_ok (row : List Bool) (h : row.length = 384) :
    encode1bppRow row = .ok ((List.range 48).map (encodeByte row)) := by
  show (if row.length = 384 then
      Except.ok ((List.range 48).map (encodeByte row))
    else Except.error "Row length must be 384") = _
  rw [if_pos h]

lemma encode1bppRow_err (row : List Bool) (h : row.length ≠ 384) :
    encode1bppRow row = .error "Row length must be 384" := by
  show (if row.length = 384 then
      Except.ok ((List.range 48).map (encodeByte row))
    else Except.error "Row length must be 384") = _
  rw [if_neg h]

lemma encodeRowsAux_ok (rows : List (List Bool)) (h : ∀ r ∈ rows, r.length = 384) :
    ∃ buf, encodeRowsAux rows = .ok buf
      ∧ buf.length = 48 * rows.length
      ∧ ∀ y j, y < rows.length → j < 48 →
          buf.getD (48 * y + j) 0 = encodeByte (rows.getD y []) j := by
  induction rows with
  | nil =>
    exact ⟨[], rfl, by simp, fun y j hy _ => absurd hy (Nat.not_lt_zero y)⟩
  | cons row rest ih =>
    have hrow : row.length = 384 := h row (by simp)
    obtain ⟨buf, hbuf, hlen, hidx⟩ := ih (fun r hr => h r (by simp [hr]))
    refine ⟨(List.range 48).map (encodeByte row) ++ buf, ?_, ?_, ?_⟩
    · simp only [encodeRowsAux, encode1bppRow_ok row hrow, hbuf]
    · simp only [List.length_append, List.length_map, List.length_range, hlen,
        List.length_cons]
      ring
    · intro y j hy hj
      cases y with
      | zero =>
        have hlt : 48 * 0 + j < ((List.range 48).map (encodeByte row)).length := by
          simp only [List.length_map, List.length_range]
          omega
        rw [List.getD_append _ _ _ _ hlt]
        simp only [Nat.mul_zero, Nat.zero_add]
        rw [getD_range_map _ _ _ _ hj]
        rfl
      | succ y =>
        have hge : ((List.range 48).map (encodeByte row)).length ≤ 48 * (y + 1) + j := by
          simp only [List.length_map, List.length_range]
          omega
        rw [List.getD_append_right _ _ _ _ hge]
        have harith : 48 * (y + 1) + j - ((List.range 48).map (encodeByte row)).length
            = 48 * y + j := by
          simp only [List.length_map, List.length_range]
          omega
        rw [harith, hidx y j (by simpa using hy) hj]
        rfl

lemma encodeRowsAux_err (rows : List (List Bool)) (h : ∃ r ∈ rows, r.length ≠ 384) :
    ∃ e, encodeRowsAux rows = .error e := by
  induction rows with
  | nil => obtain ⟨r, hr, _⟩ := h; exact absurd hr (List.not_mem_nil r)
  | cons row rest ih =>
    by_cases hrow : row.length = 384
    · have hrest : ∃ r ∈ rest, r.length ≠ 384 := by
        obtain ⟨r, hr, hne⟩ := h
        rcases List.mem_cons.mp hr with heq | hmem
        · exact absurd (heq ▸ hrow) hne
        · exact ⟨r, hmem, hne⟩
      obtain ⟨e, he⟩ := ih hrest
      refine ⟨e, ?_⟩
      simp only [encodeRowsAux, encode1bppRow_ok row hrow, he]
    · refine ⟨"Row length must be 384", ?_⟩
      simp only [encodeRowsAux, encode1bppRow_err row hrow]

lemma prepareImageDataBuffer_ok (rows : List (List Bool))
    (h : ∀ r ∈ rows, r.length = 384) :
    ∃ buf, prepareImageDataBuffer rows = .ok buf
      ∧ buf.length = max rows.length 90 * 48
      ∧ (∀ y j, y < rows.length → j < 48 →
          buf.getD (48 * y + j) 0 = encodeByte (rows.getD y []) j)
      ∧ (∀ i, 48 * rows.length ≤ i → buf.getD i 0 = 0) := by
  obtain ⟨b0, hb0, hlen, hidx⟩ := encodeRowsAux_ok rows h
  have hmdb : MIN_DATA_BYTES = 4320 := rfl
  by_cases hsmall : b0.length < MIN_DATA_BYTES
  · refine ⟨b0 ++ List.replicate (MIN_DATA_BYTES - b0.length) 0, ?_, ?_, ?_, ?_⟩
    · simp only [prepareImageDataBuffer, hb0]
      rw [if_pos hsmall]
    · simp only [List.length_append, List.length_replicate, hlen, hmdb] at *
      omega
    · intro y j hy hj
      have hlt : 48 * y + j < b0.length := by rw [hlen]; omega
      rw [List.getD_append _ _ _ _ hlt]
      exact hidx y j hy hj
    · intro i hi
      have hge : b0.length ≤ i := by rw [hlen]; omega
      rw [List.getD_append_right _ _ _ _ hge]
      exact getD_replicate_self _ _ 0
  · refine ⟨b0, ?_, ?_, hidx, ?_⟩
    · simp only [prepareImageDataBuffer, hb0]
      rw [if_neg hsmall]
    · rw [hlen] at hsmall ⊢
      rw [hmdb] at hsmall
      omega
    · intro i hi
      exact getD_zero_of_le b0 i (by omega)

/-- The all-white one-row raster encodes to 4320 zero bytes (shared by the
C2 theorem and the C3 counterexample). -/
lemma prepare_allwhite :
    prepareImageDataBuffer [List.replicate 384 false] = .ok (List.replicate 4320 0) := by
  have hmap : (List.range 48).map (encodeByte (List.replicate 384 false))
      = List.replicate 48 0 := by
    have h1 : (List.range 48).map (encodeByte (List.replicate 384 false))
        = (List.range 48).map (fun _ => 0) :=
      List.map_congr_left (fun x _ => encodeByte_allFalse 384 x)
    rw [h1, List.map_const', List.length_range]
  have henc : encodeRowsAux [List.replicate 384 false] = .ok (List.replicate 48 0) := by
    simp only [encodeRowsAux, encode1bppRow_ok _ (List.length_replicate 384 false), hmap]
    simp
  simp only [prepareImageDataBuffer, henc]
  have hmdb : MIN_DATA_BYTES = 4320 := rfl
  rw [if_pos (by rw [List.length_replicate, hmdb]; omega)]
  rw [List.length_replicate, hmdb]
  have hrep : List.replicate 48 (0 : Nat) ++ List.replicate (4320 - 48) 0
      = List.replicate 4320 0 := by
    rw [← List.replicate_add]
  rw [hrep]

/-- Claim C2: for every raster of height at least 1 whose rows are all 384
pixels wide, `prepareImageDataBuffer` succeeds with a buffer of exactly
`max h 90 * 48` bytes in which byte `48*y + x/8` carries pixel `(x, y)` in
bit `x % 8` (least-significant-first), and every byte at an index at or
beyond `48*h` is zero; in particular the one-row all-white raster encodes
to 4320 zero bytes (and, instantiated at 200 rows, the buffer is exactly
9600 bytes with no padding). -/
theorem prepareImageDataBuffer_spec (rows : List (List Bool))
    (h1 : 1 ≤ rows.length) (h2 : ∀ r ∈ rows, r.length = 384) :
    ∃ buf, prepareImageDataBuffer rows = .ok buf
      ∧ buf.length = max rows.length 90 * 48
      ∧ (∀ y x, y < rows.length → x < 384 →
          (buf.getD (48 * y + x / 8) 0).testBit (x % 8) = (rows.getD y []).getD x false)
      ∧ (∀ i, 48 * rows.length ≤ i → buf.getD i 0 = 0)
      ∧ prepareImageDataBuffer [List.replicate 384 false]
          = .ok (List.replicate 4320 0) := by
  obtain ⟨buf, hbuf, hlen, hidx, hzero⟩ := prepareImageDataBuffer_ok rows h2
  refine ⟨buf, hbuf, hlen, ?_, hzero, prepare_allwhite⟩
  intro y x hy hx
  have hdiv : x / 8 < 48 := by omega
  rw [hidx y (x / 8) hy hdiv, encodeByte_testBit]
  have hmod : x % 8 < 8 := by omega
  have harith : x / 8 * 8 + x % 8 = x := by omega
  rw [harith]
  simp [hmod]

/-- Witness for C2 at a concrete 200-row all-white raster: the encoded
buffer is exactly `max 200 90 * 48 = 9600` bytes, with no padding region
below index `48 * 200`. -/
theorem prepareImageDataBuffer_spec_witness :
    ∃ buf, prepareImageDataBuffer (List.replicate 200 (List.replicate 384 false))
        = .ok buf
      ∧ buf.length = max (List.replicate 200 (List.replicate 384 false)).length 90 * 48
      ∧ (∀ y x, y < (List.replicate 200 (List.replicate 384 false)).length → x < 384 →
          (buf.getD (48 * y + x / 8) 0).testBit (x % 8)
            = ((List.replicate 200 (List.replicate 384 false)).getD y []).getD x false)
      ∧ (∀ i, 48 * (List.replicate 200 (List.replicate 384 false)).length ≤ i →
          buf.getD i 0 = 0)
      ∧ prepareImageDataBuffer [List.replicate 384 false]
          = .ok (List.replicate 4320 0) :=
  prepareImageDataBuffer_spec (List.replicate 200 (List.replicate 384 false))
    (by rw [List.length_replicate]; omega)
    (fun r hr => by rw [List.eq_of_mem_replicate hr, List.length_replicate])

lemma goEncodeByte_width (w : Nat) (hw : 384 ≤ w) (black : Nat → Nat → Bool)
    (y xByte : Nat) (hx : xByte < 48) :
    goEncodeByte w black y xByte = goEncodeByte 384 black y xByte := by
  unfold goEncodeByte
  apply foldl_congr_mem
  intro acc bit hbit
  have hb : bit < 8 := List.mem_range.mp hbit
  have h1 : xByte * 8 + bit < w := by omega
  have h2 : xByte * 8 + bit < 384 := by omega
  simp [h1, h2]

lemma goEncodeByte_testBit (w : Nat) (black : Nat → Nat → Bool) (y xByte i : Nat) :
    (goEncodeByte w black y xByte).testBit i
      = (decide (i < 8) && (decide (xByte * 8 + i < w) && black (xByte * 8 + i) y)) :=
  foldl_orBit_testBit
    (fun bit => decide (xByte * 8 + bit < w) && black (xByte * 8 + bit) y) 8 i

lemma goRows_length (w h : Nat) (black : Nat → Nat → Bool) :
    (goRows w h black).length = 48 * h := by
  unfold goRows
  rw [List.length_flatten, List.map_map]
  have hmap : (List.range h).map
      (List.length ∘ fun y => (List.range PRINTER_WIDTH_BYTES).map (goEncodeByte w black y))
      = (List.range h).map (fun _ => 48) :=
    List.map_congr_left (fun y _ => by
      simp only [Function.comp_apply, List.length_map, List.length_range]
      rfl)
  rw [hmap, List.map_const', List.length_range, List.sum_replicate, smul_eq_mul]
  omega

lemma encodeImageToBuffer_length (w h : Nat) (black : Nat → Nat → Bool) :
    (encodeImageToBuffer w h black).length = max h 90 * 48 := by
  unfold encodeImageToBuffer
  have hg := goRows_length w h black
  have hmdb : MIN_DATA_BYTES = 4320 := rfl
  by_cases hs : (goRows w h black).length < MIN_DATA_BYTES
  · rw [if_pos hs, List.length_append, List.length_replicate, hg]
    rw [hg, hmdb] at hs
    rw [hmdb]
    omega
  · rw [if_neg hs, hg]
    rw [hg, hmdb] at hs
    omega

lemma encodeImageToBuffer_one_row (w : Nat) (black : Nat → Nat → Bool) :
    encodeImageToBuffer w 1 black
      = (List.range 48).map (goEncodeByte w black 0) ++ List.replicate 4272 0 := by
  have hone : goRows w 1 black = (List.range 48).map (goEncodeByte w black 0) := by
    unfold goRows
    have h1 : List.range 1 = [0] := rfl
    rw [h1]
    simp only [List.map_cons, List.map_nil, List.flatten_cons, List.flatten_nil,
      List.append_nil]
    rfl
  unfold encodeImageToBuffer
  rw [hone]
  have hlen : ((List.range 48).map (goEncodeByte w black 0)).length = 48 := by
    rw [List.length_map, List.length_range]
  rw [if_pos (by rw [hlen]; decide), hlen]
  have hsub : MIN_DATA_BYTES - 48 = 4272 := rfl
  rw [hsub]

/-- Counterexample to claim C8: a 100-column all-black raster is neither
rejected nor truncated by the Go `encodeImageToBuffer`.  It produces a
normal full-size buffer of 4320 bytes that is then streamed to the device;
byte 13 of the first row (columns 104-111) is zero-filled padding, whereas
the 384-column encoding of the same pixel predicate has 0xFF there, so the
narrow raster is not encoded as any truncation to 384 columns either. -/
theorem encodeImageToBuffer_narrow_counterexample :
    (encodeImageToBuffer 100 1 (fun _ _ => true)).length = 4320
    ∧ (encodeImageToBuffer 100 1 (fun _ _ => true)).getD 13 0 = 0
    ∧ (encodeImageToBuffer 384 1 (fun _ _ => true)).getD 13 0 = 255
    ∧ encodeImageToBuffer 100 1 (fun _ _ => true)
        ≠ encodeImageToBuffer 384 1 (fun _ _ => true) := by
  have h100 := encodeImageToBuffer_one_row 100 (fun _ _ => true)
  have h384 := encodeImageToBuffer_one_row 384 (fun _ _ => true)
  have hg100 : (encodeImageToBuffer 100 1 (fun _ _ => true)).getD 13 0 = 0 := by
    rw [h100,
      List.getD_append _ _ _ _ (by rw [List.length_map, List.length_range]; omega),
      getD_range_map _ _ _ _ (by omega)]
    decide
  have hg384 : (encodeImageToBuffer 384 1 (fun _ _ => true)).getD 13 0 = 255 := by
    rw [h384,
      List.getD_append _ _ _ _ (by rw [List.length_map, List.length_range]; omega),
      getD_range_map _ _ _ _ (by omega)]
    decide
  refine ⟨?_, hg100, hg384, ?_⟩
  · rw [h100, List.length_append, List.length_map, List.length_range,
      List.length_replicate]
  · intro heq
    rw [heq, hg384] at hg100
    exact absurd hg100 (by omega)

/-- Claim C8 as amended: a raster row that is not exactly 384 entries wide
is rejected by the Node path before any device write (`encode1bppRow`
throws, the error propagates through `prepareImageDataBuffer`, and
`connectAndPrint` issues no write at all); the Go `encodeImageToBuffer`
truncates rasters wider than 384 columns, reading only the leftmost 384
columns, but it neither rejects nor truncates narrower rasters: every
width yields the standard full-size buffer of `max h 90 * 48` bytes, in
which bit `x mod 8` of the byte at row `y`, column `x / 8` carries the
pixel when `x` is inside the image width and is zero-filled padding when
`x` is at or beyond it, and that buffer is then streamed to the device. -/
theorem raster_width_guard :
    (∀ row : List Bool, row.length ≠ 384 →
        encode1bppRow row = .error "Row length must be 384")
    ∧ (∀ rows : List (List Bool), (∃ r ∈ rows, r.length ≠ 384) →
        ∃ e, prepareImageDataBuffer rows = .error e)
    ∧ (∀ (ok : Nat → Bool) (rows : List (List Bool)), (∃ r ∈ rows, r.length ≠ 384) →
        ∃ e, connectAndPrint ok rows = ([], .error e))
    ∧ (∀ (w h : Nat) (black : Nat → Nat → Bool), 384 ≤ w →
        encodeImageToBuffer w h black = encodeImageToBuffer 384 h black)
    ∧ (∀ (w h : Nat) (black : Nat → Nat → Bool),
        (encodeImageToBuffer w h black).length = max h 90 * 48)
    ∧ (∀ (w : Nat) (black : Nat → Nat → Bool) (y xByte i : Nat), i < 8 →
        (goEncodeByte w black y xByte).testBit i
          = (decide (xByte * 8 + i < w) && black (xByte * 8 + i) y)) := by
  have hprep : ∀ rows : List (List Bool), (∃ r ∈ rows, r.length ≠ 384) →
      ∃ e, prepareImageDataBuffer rows = .error e := by
    intro rows hbad
    obtain ⟨e, he⟩ := encodeRowsAux_err rows hbad
    refine ⟨e, ?_⟩
    simp only [prepareImageDataBuffer, he]
  refine ⟨encode1bppRow_err, hprep, ?_, ?_, encodeImageToBuffer_length, ?_⟩
  · intro ok rows hbad
    obtain ⟨e, he⟩ := hprep rows hbad
    refine ⟨e, ?_⟩
    simp only [connectAndPrint, he]
  · intro w h black hw
    unfold encodeImageToBuffer
    have hgb : goRows w h black = goRows 384 h black := by
      unfold goRows
      have hmap : (List.range h).map
          (fun y => (List.range PRINTER_WIDTH_BYTES).map (goEncodeByte w black y))
          = (List.range h).map
            (fun y => (List.range PRINTER_WIDTH_BYTES).map (goEncodeByte 384 black y)) := by
        apply List.map_congr_left
        intro y _
        apply List.map_congr_left
        intro xByte hxb
        have hx : xByte < 48 := by
          have := List.mem_range.mp hxb
          simpa using this
        exact goEncodeByte_width w hw black y xByte hx
      rw [hmap]
    rw [hgb]
  · intro w black y xByte i hi
    rw [goEncodeByte_testBit]
    simp [hi]

/-- Witness for the amended C8 at concrete inputs: the empty row is
rejected, the rejection reaches `prepareImageDataBuffer` and
`connectAndPrint`, a 400-column image encodes exactly as its 384-column
truncation, a 100-column 2-row image still yields the standard
`max 2 90 * 48` bytes, and bit 0 of byte 13 of a 100-column all-black row
reads its in-or-out-of-width value. -/
theorem raster_width_guard_witness :
    encode1bppRow [] = .error "Row length must be 384"
    ∧ (∃ e, prepareImageDataBuffer [[]] = .error e)
    ∧ (∃ e, connectAndPrint (fun _ => true) [[]] = ([], .error e))
    ∧ encodeImageToBuffer 400 1 (fun _ _ => true)
        = encodeImageToBuffer 384 1 (fun _ _ => true)
    ∧ (encodeImageToBuffer 100 2 (fun _ _ => true)).length = max 2 90 * 48
    ∧ (goEncodeByte 100 (fun _ _ => true) 0 13).testBit 0
        = (decide (13 * 8 + 0 < 100) && true) :=
  ⟨raster_width_guard.1 [] (by simp),
   raster_width_guard.2.1 [[]] ⟨[], by simp⟩,
   raster_width_guard.2.2.1 (fun _ => true) [[]] ⟨[], by simp⟩,
   raster_width_guard.2.2.2.1 400 1 (fun _ _ => true) (by omega),
   raster_width_guard.2.2.2.2.1 100 2 (fun _ _ => true),
   raster_width_guard.2.2.2.2.2 100 (fun _ _ => true) 0 13 0 (by omega)⟩

lemma streamWrites_all (ok : Nat → Bool) :
    ∀ (ws : List WriteOp) (k : Nat), (∀ j < ws.length, ok (k + j) = true) →
      streamWrites ok k ws = (ws, true, k + ws.length) := by
  intro ws
  induction ws with
  | nil => intro k _; simp [streamWrites]
  | cons w ws ih =>
    intro k h
    have h0 : ok k = true := by simpa using h 0 (by simp)
    have hrest := ih (k + 1) (fun j hj => by
      have := h (j + 1) (by simp; omega)
      rwa [show k + (j + 1) = k + 1 + j by omega] at this)
    simp only [streamWrites, h0, if_pos, hrest]
    simp
    omega

lemma streamWrites_firstFail (ok : Nat → Bool) :
    ∀ (ws : List WriteOp) (k m : Nat), m < ws.length → ok (k + m) = false →
      (∀ j < m, ok (k + j) = true) →
      streamWrites ok k ws = (ws.take (m + 1), false, k + m + 1) := by
  intro ws
  induction ws with
  | nil => intro k m hm _ _; exact absurd hm (by simp)
  | cons w ws ih =>
    intro k m hm hfail hok
    cases m with
    | zero =>
      have h0 : ok k = false := by simpa using hfail
      simp [streamWrites, h0]
    | succ m =>
      have h0 : ok k = true := by simpa using hok 0 (by omega)
      have hrest := ih (k + 1) m (by simpa using hm)
        (by rwa [show k + 1 + m = k + (m + 1) by omega])
        (fun j hj => by
          have := hok (j + 1) (by omega)
          rwa [show k + (j + 1) = k + 1 + j by omega] at this)
      simp only [streamWrites, h0, if_pos, hrest]
      simp
      omega

lemma rows48_facts (l : List Nat) : 48 ∣ l.length →
    (∀ r ∈ rows48 l, r.length = 48) ∧ (rows48 l).flatten = l := by
  induction l using rows48.induct with
  | case1 =>
    intro _
    rw [rows48]
    simp
  | case2 l hl ih =>
    intro hdvd
    have hw : PRINTER_WIDTH_BYTES = 48 := rfl
    have hpos : 0 < l.length := List.length_pos.mpr hl
    have hge : 48 ≤ l.length := by
      rcases hdvd with ⟨c, hc⟩
      omega
    have hdvd' : 48 ∣ (l.drop PRINTER_WIDTH_BYTES).length := by
      rw [List.length_drop, hw]
      rcases hdvd with ⟨c, hc⟩
      exact ⟨c - 1, by omega⟩
    obtain ⟨ihlen, ihflat⟩ := ih hdvd'
    rw [rows48, dif_neg hl]
    constructor
    · intro r hr
      rcases List.mem_cons.mp hr with rfl | hmem
      · rw [List.length_take, hw]
        omega
      · exact ihlen r hmem
    · rw [List.flatten_cons, ihflat, hw]
      exact List.take_append_drop 48 l

lemma chunks244_flatten (l : List Nat) : (chunks244 l).flatten = l := by
  induction l using chunks244.induct with
  | case1 => rw [chunks244]; simp
  | case2 l hl ih =>
    rw [chunks244, dif_neg hl]
    simp [ih]

lemma chunks244_chunkLen (l : List Nat) : ∀ c ∈ chunks244 l, c.length ≤ 244 := by
  induction l using chunks244.induct with
  | case1 => rw [chunks244]; simp
  | case2 l hl ih =>
    rw [chunks244, dif_neg hl]
    intro c hc
    rcases List.mem_cons.mp hc with rfl | hmem
    · rw [List.length_take]
      omega
    · exact ih c hmem

lemma chunks244_cons (l : List Nat) (h : l ≠ []) :
    chunks244 l = l.take 244 :: chunks244 (l.drop 244) := by
  rw [chunks244, dif_neg h]

lemma rowSubChunks_flatten (row : List Nat) (h : row.length = 48) :
    (rowSubChunks row).flatten = row := by
  simp only [rowSubChunks, List.flatten_cons, List.flatten_nil, List.append_nil]
  have h40 : (row.drop 40).take 8 = row.drop 40 :=
    List.take_of_length_le (by simp [h])
  have hdd : row.drop 40 = (row.drop 20).drop 20 := by
    rw [List.drop_drop]
  rw [h40, hdd, List.take_append_drop, List.take_append_drop]

lemma rowSubChunks_len (row : List Nat) : ∀ c ∈ rowSubChunks row, c.length ≤ 20 := by
  intro c hc
  simp only [rowSubChunks, List.mem_cons, List.not_mem_nil, or_false] at hc
  rcases hc with rfl | rfl | rfl
  · rw [List.length_take]; omega
  · rw [List.length_take]; omega
  · rw [List.length_take]; omega

lemma flatten_map_rowSubChunks (R : List (List Nat)) (h : ∀ r ∈ R, r.length = 48) :
    ((R.map rowSubChunks).flatten).flatten = R.flatten := by
  induction R with
  | nil => simp
  | cons r rest ih =>
    simp only [List.map_cons, List.flatten_cons, List.flatten_append]
    rw [rowSubChunks_flatten r (h r (by simp)), ih (fun x hx => h x (by simp [hx]))]

lemma printImageDataOps_eq (buffer : List Nat) :
    printImageDataOps buffer
      = (((rows48 buffer).map rowSubChunks).flatten).map
          (fun c => (⟨.data, c⟩ : WriteOp)) := by
  unfold printImageDataOps
  rw [List.map_flatten, List.map_map]
  rfl

lemma printImageFullOps_length (numRows : Nat) (buffer : List Nat) :
    (printImageFullOps numRows buffer).length = (printImageDataOps buffer).length + 3 := by
  simp [printImageFullOps]

lemma printImage_allOk_eq (ok : Nat → Bool) (numRows : Nat) (buffer : List Nat)
    (h : ∀ k < (printImageFullOps numRows buffer).length, ok k = true) :
    printImage ok numRows buffer = (printImageFullOps numRows buffer, .ok ()) := by
  have h0 : ok 0 = true := h 0 (by rw [printImageFullOps_length]; omega)
  have h1 : ok 1 = true := h 1 (by rw [printImageFullOps_length]; omega)
  have hdata : ∀ j < (printImageDataOps buffer).length, ok (2 + j) = true :=
    fun j hj => h (2 + j) (by rw [printImageFullOps_length]; omega)
  have hsw := streamWrites_all ok (printImageDataOps buffer) 2 hdata
  have hnext : ok (2 + (printImageDataOps buffer).length) = true :=
    h _ (by rw [printImageFullOps_length]; omega)
  simp [printImage, h0, h1, hsw, hnext, printImageFullOps]

lemma printImage_fail (ok : Nat → Bool) (numRows : Nat) (buffer : List Nat) (k : Nat)
    (hk : k < (printImageFullOps numRows buffer).length)
    (hfail : ok k = false) (hok : ∀ j < k, ok j = true) :
    (printImage ok numRows buffer).1 = (printImageFullOps numRows buffer).take (k + 1)
    ∧ ∃ e, (printImage ok numRows buffer).2 = .error e := by
  rcases k with _ | k
  · constructor
    · simp [printImage, hfail, printImageFullOps]
    · exact ⟨"failed to write set intensity", by simp [printImage, hfail]⟩
  rcases k with _ | k
  · have h0 : ok 0 = true := hok 0 (by omega)
    constructor
    · simp [printImage, h0, hfail, printImageFullOps]
    · exact ⟨"failed to write print request", by simp [printImage, h0, hfail]⟩
  · have h0 : ok 0 = true := hok 0 (by omega)
    have h1 : ok 1 = true := hok 1 (by omega)
    have hkn : k ≤ (printImageDataOps buffer).length := by
      rw [printImageFullOps_length] at hk
      omega
    rcases Nat.lt_or_ge k (printImageDataOps buffer).length with hlt | hge
    · have hsw := streamWrites_firstFail ok (printImageDataOps buffer) 2 k hlt
        (by rwa [show 2 + k = k + 2 by omega])
        (fun j hj => by
          have := hok (j + 2) (by omega)
          rwa [show j + 2 = 2 + j by omega] at this)
      constructor
      · have htr : (printImage ok numRows buffer).1
            = [⟨.control, createCommand 0xA2 [0xA0]⟩,
               ⟨.control, createCommand 0xA9
                 [numRows % 256, numRows / 256 % 256, 0x30, 0x00]⟩]
              ++ (printImageDataOps buffer).take (k + 1) := by
          simp [printImage, h0, h1, hsw]
        have hfull : (printImageFullOps numRows buffer).take (k + 2 + 1)
            = [⟨.control, createCommand 0xA2 [0xA0]⟩,
               ⟨.control, createCommand 0xA9
                 [numRows % 256, numRows / 256 % 256, 0x30, 0x00]⟩]
              ++ (printImageDataOps buffer).take (k + 1) := by
          rw [printImageFullOps]
          simp only [List.take_succ_cons]
          rw [List.take_append_eq_append_take]
          have hz : (k + 1) - (printImageDataOps buffer).length = 0 := by omega
          rw [hz]
          simp
        rw [htr, hfull]
      · exact ⟨"failed to write image data sub-chunk", by simp [printImage, h0, h1, hsw]⟩
    · have hkeq : k = (printImageDataOps buffer).length := by omega
      subst hkeq
      have hsw := streamWrites_all ok (printImageDataOps buffer) 2
        (fun j hj => by
          have := hok (j + 2) (by omega)
          rwa [show j + 2 = 2 + j by omega] at this)
      have hfail' : ok (2 + (printImageDataOps buffer).length) = false := by
        rwa [show 2 + (printImageDataOps buffer).length
          = (printImageDataOps buffer).length + 2 by omega]
      constructor
      · have htr : (printImage ok numRows buffer).1
            = [⟨.control, createCommand 0xA2 [0xA0]⟩,
               ⟨.control, createCommand 0xA9
                 [numRows % 256, numRows / 256 % 256, 0x30, 0x00]⟩]
              ++ printImageDataOps buffer ++ [⟨.control, createCommand 0xAD [0x00]⟩] := by
          simp [printImage, h0, h1, hsw, hfail']
        have hfull : (printImageFullOps numRows buffer).take
              ((printImageDataOps buffer).length + 2 + 1)
            = printImageFullOps numRows buffer := by
          have hlen := printImageFullOps_length numRows buffer
          rw [show (printImageDataOps buffer).length + 2 + 1
            = (printImageFullOps numRows buffer).length by omega]
          exact List.take_length _
        rw [htr, hfull, printImageFullOps]
        simp
      · exact ⟨"failed to write flush", by simp [printImage, h0, h1, hsw, hfail']⟩

lemma printImage_trace_prefix (ok : Nat → Bool) (numRows : Nat) (buffer : List Nat) :
    ∃ rest, printImageFullOps numRows buffer = (printImage ok numRows buffer).1 ++ rest := by
  by_cases hall : ∀ k < (printImageFullOps numRows buffer).length, ok k = true
  · rw [printImage_allOk_eq ok numRows buffer hall]
    exact ⟨[], by simp⟩
  · push_neg at hall
    have hex : ∃ k, ok k = false ∧ k < (printImageFullOps numRows buffer).length := by
      obtain ⟨k, hk, hkf⟩ := hall
      refine ⟨k, ?_, hk⟩
      revert hkf
      cases ok k <;> simp
    have hspec := Nat.find_spec hex
    have hmin : ∀ j < Nat.find hex, ok j = true := by
      intro j hj
      have hnot := Nat.find_min hex hj
      have hjL : j < (printImageFullOps numRows buffer).length :=
        lt_trans hj hspec.2
      cases h : ok j
      · exact absurd ⟨h, hjL⟩ hnot
      · rfl
    have hf := printImage_fail ok numRows buffer (Nat.find hex) hspec.2 hspec.1 hmin
    rw [hf.1]
    exact ⟨(printImageFullOps numRows buffer).drop (Nat.find hex + 1),
      (List.take_append_drop _ _).symm⟩

lemma connectAndPrint_allOk (ok : Nat → Bool) (imageRows : List (List Bool))
    (buffer : List Nat) (hok : ∀ k, ok k = true)
    (hprep : prepareImageDataBuffer imageRows = .ok buffer) :
    connectAndPrint ok imageRows =
      (⟨.control, createCommand 0xA2 [0x5D]⟩ ::
        ((chunks244 buffer).map (fun c => (⟨.data, c⟩ : WriteOp)) ++
          [⟨.control, createCommand 0xA9
            [imageRows.length % 256, imageRows.length / 256 % 256, 0x30, 0x00]⟩]),
       .ok ()) := by
  have hsw := streamWrites_all ok
    ((chunks244 buffer).map (fun c => (⟨.data, c⟩ : WriteOp))) 1
    (fun j _ => hok (1 + j))
  simp [connectAndPrint, hprep, hsw, hok]

/-- Counterexample to claim C3: run the Node CLI transfer
(`connectAndPrint`) on a one-row all-white raster with every write
succeeding.  Its write list does not have the claimed shape
set-intensity, print-request, data, flush: the write directly after
set-intensity goes to the data endpoint (the print request is only sent
after all raster data), and no flush command exists in the sequence. -/
theorem transfer_order_counterexample :
    ¬ ClaimedTransferOrder 1 (connectAndPrint (fun _ => true) [List.replicate 384 false]).1 := by
  intro hclaim
  obtain ⟨ib, chunks, heq⟩ := hclaim
  have htr : (connectAndPrint (fun _ => true) [List.replicate 384 false]).1
      = ⟨.control, createCommand 0xA2 [0x5D]⟩ ::
        ((chunks244 (List.replicate 4320 0)).map (fun c => (⟨.data, c⟩ : WriteOp)) ++
          [⟨.control, createCommand 0xA9
            [[List.replicate 384 false].length % 256,
              [List.replicate 384 false].length / 256 % 256, 0x30, 0x00]⟩]) := by
    rw [connectAndPrint_allOk (fun _ => true) [List.replicate 384 false]
      (List.replicate 4320 0) (fun _ => rfl) prepare_allwhite]
  have hchunks : chunks244 (List.replicate 4320 (0 : Nat))
      = (List.replicate 4320 (0 : Nat)).take 244
          :: chunks244 ((List.replicate 4320 (0 : Nat)).drop 244) :=
    chunks244_cons _ (by
      intro hn
      have hlen := congrArg List.length hn
      rw [List.length_replicate, List.length_nil] at hlen
      exact absurd hlen (by omega))
  rw [htr, hchunks] at heq
  simp only [List.map_cons, List.cons_append, List.cons.injEq] at heq
  obtain ⟨-, habs, -⟩ := heq
  exact absurd (congrArg WriteOp.ep habs) (by simp)

/-- Claim C3 as amended.  The Go daemon transfer (`PrintImage`) emits, when
every write succeeds, exactly: one set-intensity command, then the print
request whose payload is the row count as 2 little-endian bytes followed by
the fixed mode bytes 0x30 0x00, then the raster buffer on the data endpoint
in sub-chunks of at most 20 bytes whose concatenation is the buffer, then a
flush command; every run's write list is a prefix of this full sequence,
and a first write failure at any position truncates the sequence right
there and surfaces a typed error.  The Node CLI transfer
(`connectAndPrint`), by contrast, emits set-intensity, then the raster in
at-most-244-byte chunks, then the print request, with no flush command. -/
theorem transfer_command_order :
    (∀ (ok : Nat → Bool) (numRows : Nat) (buffer : List Nat),
      (∀ k, ok k = true) → numRows ≤ 65535 → 48 ∣ buffer.length →
      ∃ dataChunks : List (List Nat),
        printImage ok numRows buffer = (printImageFullOps numRows buffer, .ok ())
        ∧ printImageFullOps numRows buffer =
            ⟨.control, createCommand 0xA2 [0xA0]⟩ ::
            ⟨.control, createCommand 0xA9 [numRows % 256, numRows / 256, 0x30, 0x00]⟩ ::
            (dataChunks.map (fun c => (⟨.data, c⟩ : WriteOp)) ++
              [⟨.control, createCommand 0xAD [0x00]⟩])
        ∧ dataChunks.flatten = buffer
        ∧ (∀ c ∈ dataChunks, c.length ≤ 20)
        ∧ numRows % 256 + 256 * (numRows / 256) = numRows)
    ∧ (∀ (ok : Nat → Bool) (numRows : Nat) (buffer : List Nat),
        ∃ rest, printImageFullOps numRows buffer
          = (printImage ok numRows buffer).1 ++ rest)
    ∧ (∀ (ok : Nat → Bool) (numRows : Nat) (buffer : List Nat) (k : Nat),
        k < (printImageFullOps numRows buffer).length →
        ok k = false → (∀ j < k, ok j = true) →
        (printImage ok numRows buffer).1
            = (printImageFullOps numRows buffer).take (k + 1)
        ∧ ∃ e, (printImage ok numRows buffer).2 = .error e)
    ∧ (∀ (ok : Nat → Bool) (imageRows : List (List Bool)) (buffer : List Nat),
        (∀ k, ok k = true) → prepareImageDataBuffer imageRows = .ok buffer →
        connectAndPrint ok imageRows =
          (⟨.control, createCommand 0xA2 [0x5D]⟩ ::
            ((chunks244 buffer).map (fun c => (⟨.data, c⟩ : WriteOp)) ++
              [⟨.control, createCommand 0xA9
                [imageRows.length % 256, imageRows.length / 256 % 256, 0x30, 0x00]⟩]),
           .ok ())
        ∧ (chunks244 buffer).flatten = buffer
        ∧ (∀ c ∈ chunks244 buffer, c.length ≤ 244)) := by
  refine ⟨?_, printImage_trace_prefix, printImage_fail, ?_⟩
  · intro ok numRows buffer hok hrows hdvd
    obtain ⟨hlen48, hflat⟩ := rows48_facts buffer hdvd
    refine ⟨((rows48 buffer).map rowSubChunks).flatten, ?_, ?_, ?_, ?_, ?_⟩
    · exact printImage_allOk_eq ok numRows buffer (fun k _ => hok k)
    · rw [printImageFullOps, printImageDataOps_eq]
      have h2 : numRows / 256 % 256 = numRows / 256 := Nat.mod_eq_of_lt (by omega)
      rw [h2]
    · rw [flatten_map_rowSubChunks (rows48 buffer) hlen48, hflat]
    · intro c hc
      obtain ⟨sub, hsub, hcsub⟩ := List.mem_flatten.mp hc
      obtain ⟨r, _, rfl⟩ := List.mem_map.mp hsub
      exact rowSubChunks_len r c hcsub
    · omega
  · intro ok imageRows buffer hok hprep
    exact ⟨connectAndPrint_allOk ok imageRows buffer hok hprep,
      chunks244_flatten buffer, chunks244_chunkLen buffer⟩

/-- Witness for the amended C3 at concrete inputs: an all-successful daemon
run on a 48-byte buffer, the prefix property and the abort-at-first-write
behavior on concrete oracles, and an all-successful CLI run on the one-row
all-white raster. -/
theorem transfer_command_order_witness :
    (∃ dataChunks : List (List Nat),
      printImage (fun _ => true) 1 (List.replicate 48 0)
          = (printImageFullOps 1 (List.replicate 48 0), .ok ())
      ∧ printImageFullOps 1 (List.replicate 48 0) =
          ⟨.control, createCommand 0xA2 [0xA0]⟩ ::
          ⟨.control, createCommand 0xA9 [1 % 256, 1 / 256, 0x30, 0x00]⟩ ::
          (dataChunks.map (fun c => (⟨.data, c⟩ : WriteOp)) ++
            [⟨.control, createCommand 0xAD [0x00]⟩])
      ∧ dataChunks.flatten = List.replicate 48 0
      ∧ (∀ c ∈ dataChunks, c.length ≤ 20)
      ∧ 1 % 256 + 256 * (1 / 256) = 1)
    ∧ (∃ rest, printImageFullOps 1 (List.replicate 48 0)
        = (printImage (fun k => decide (0 < k)) 1 (List.replicate 48 0)).1 ++ rest)
    ∧ ((printImage (fun _ => false) 1 (List.replicate 48 0)).1
          = (printImageFullOps 1 (List.replicate 48 0)).take (0 + 1)
        ∧ ∃ e, (printImage (fun _ => false) 1 (List.replicate 48 0)).2 = .error e)
    ∧ (connectAndPrint (fun _ => true) [List.replicate 384 false] =
        (⟨.control, createCommand 0xA2 [0x5D]⟩ ::
          ((chunks244 (List.replicate 4320 0)).map (fun c => (⟨.data, c⟩ : WriteOp)) ++
            [⟨.control, createCommand 0xA9
              [[List.replicate 384 false].length % 256,
                [List.replicate 384 false].length / 256 % 256, 0x30, 0x00]⟩]),
         .ok ())
      ∧ (chunks244 (List.replicate 4320 0)).flatten = List.replicate 4320 0
      ∧ (∀ c ∈ chunks244 (List.replicate 4320 0), c.length ≤ 244)) :=
  ⟨transfer_command_order.1 (fun _ => true) 1 (List.replicate 48 0)
      (fun _ => rfl) (by omega) (by rw [List.length_replicate]),
   transfer_command_order.2.1 (fun k => decide (0 < k)) 1 (List.replicate 48 0),
   transfer_command_order.2.2.1 (fun _ => false) 1 (List.replicate 48 0) 0
      (by rw [printImageFullOps_length]; omega) rfl
      (fun j hj => absurd hj (by omega)),
   transfer_command_order.2.2.2 (fun _ => true) [List.replicate 384 false]
      (List.replicate 4320 0) (fun _ => rfl) prepare_allwhite⟩

/-- Claim C5: every `ensureConnected` call that cannot reach a connected
state (the initial liveness probe does not succeed and all three `Connect`
attempts fail) makes exactly 3 connection attempts with a 2-second pause
between consecutive attempts and none after the last, surfaces the connect
failure to the caller, and leaves the daemon disconnected. -/
theorem ensureConnected_three_attempts (wasConnected testOk : Bool)
    (connOk : Nat → Bool)
    (hfail : ∀ i < 3, connOk i = false)
    (hnot : ¬(wasConnected = true ∧ testOk = true)) :
    ensureConnected wasConnected testOk connOk
      = ⟨3, [2000, 2000], .error "failed to connect after 3 attempts", false⟩ := by
  have hcond : (wasConnected && testOk) = false := by
    cases wasConnected <;> cases testOk <;> simp_all
  have h0 := hfail 0 (by omega)
  have h1 := hfail 1 (by omega)
  have h2 := hfail 2 (by omega)
  have hloop : connectLoop connOk 0 3 = (3, [2000, 2000], false) := by
    simp [connectLoop, h0, h1, h2]
  simp [ensureConnected, hcond, hloop]

/-- Witness for C5: a call that starts disconnected with every connection
attempt failing. -/
theorem ensureConnected_three_attempts_witness :
    ensureConnected false false (fun _ => false)
      = ⟨3, [2000, 2000], .error "failed to connect after 3 attempts", false⟩ :=
  ensureConnected_three_attempts false false (fun _ => false)
    (fun _ _ => rfl) (by simp)

lemma writeRetryLoop_writeAttempts_le (writeOk reconOk : Nat → Bool) :
    ∀ (left i : Nat),
      countWriteAttempts (writeRetryLoop writeOk reconOk i left).1 ≤ left := by
  intro left
  induction left with
  | zero => intro i; simp [writeRetryLoop, countWriteAttempts]
  | succ left ih =>
    intro i
    by_cases hw : writeOk i
    · simp [writeRetryLoop, hw, countWriteAttempts]
    · rcases Nat.eq_zero_or_pos left with hz | hpos
      · subst hz
        simp [writeRetryLoop, hw, countWriteAttempts]
      · by_cases hr : reconOk i
        · have hih := ih (i + 1)
          simp only [countWriteAttempts] at hih
          simp [writeRetryLoop, hw, hpos, hr, countWriteAttempts, List.countP_cons]
          omega
        · simp [writeRetryLoop, hw, hpos, hr, countWriteAttempts]

/-- Claim C6: `writeWithRetry` attempts the raw write at most 3 times; when
every write fails and the forced reconnects succeed, each failed attempt
except the last is followed by exactly one forced `ensureConnected` and a
1-second pause before the next attempt, and exhausting the 3 attempts
surfaces the write failure as an error value to the caller (the daemon does
not terminate: the call returns normally with the error). -/
theorem writeWithRetry_spec :
    (∀ writeOk reconOk : Nat → Bool,
      countWriteAttempts (writeWithRetry writeOk reconOk).1 ≤ 3)
    ∧ (∀ writeOk reconOk : Nat → Bool,
        (∀ i < 3, writeOk i = false) → (∀ i, reconOk i = true) →
        writeWithRetry writeOk reconOk
          = ([.writeAttempt false, .reconnect, .pause 1000,
              .writeAttempt false, .reconnect, .pause 1000,
              .writeAttempt false],
             .error "failed to write after 3 attempts")) := by
  constructor
  · intro writeOk reconOk
    exact writeRetryLoop_writeAttempts_le writeOk reconOk 3 0
  · intro writeOk reconOk hw hr
    have h0 := hw 0 (by omega)
    have h1 := hw 1 (by omega)
    have h2 := hw 2 (by omega)
    simp [writeWithRetry, writeRetryLoop, h0, h1, h2, hr 0, hr 1]

/-- Witness for C6: every write fails, every reconnect succeeds. -/
theorem writeWithRetry_spec_witness :
    countWriteAttempts (writeWithRetry (fun _ => false) (fun _ => true)).1 ≤ 3
    ∧ writeWithRetry (fun _ => false) (fun _ => true)
        = ([.writeAttempt false, .reconnect, .pause 1000,
            .writeAttempt false, .reconnect, .pause 1000,
            .writeAttempt false],
           .error "failed to write after 3 attempts") :=
  ⟨writeWithRetry_spec.1 (fun _ => false) (fun _ => true),
   writeWithRetry_spec.2 (fun _ => false) (fun _ => true)
     (fun _ _ => rfl) (fun _ => rfl)⟩

/-- Counterexample to claim C4: the HTTP `/print` handler of server.js does
not go through the queue at all, so two concurrent submissions yield two
print processes running at the same time (refuting at-most-one-Running) and
an untouched `printQueue` (refuting worker-serialized execution). -/
theorem queue_bypass_counterexample :
    ¬((handlePrint (handlePrint initialQueueState 1) 2).active.length ≤ 1)
    ∧ (handlePrint (handlePrint initialQueueState 1) 2).printQueue = [] := by
  constructor
  · decide
  · rfl

/-- Claim C4 as amended: the queue worker itself is serialized and FIFO —
`processPrintQueue` dequeues exactly the head of the queue and refuses to
start anything while `isPrinting` is set — and its failure cooldowns are 3
seconds (with no Bluetooth reset) for exit code 0 or any code other than 1,
and 15 seconds plus a Bluetooth service restart for exit code 1.  However,
HTTP print submissions bypass this queue: the handler spawns one print
process per request, leaving `printQueue` and `isPrinting` untouched, so
concurrent submissions are not serialized by the worker. -/
theorem print_queue_amended :
    (∀ (s : QueueState) (j : Nat) (rest : List Nat),
      s.printQueue = j :: rest → s.isPrinting = false →
      processPrintQueue s = ⟨true, rest, j :: s.active⟩)
    ∧ (∀ s : QueueState, s.isPrinting = true → processPrintQueue s = s)
    ∧ (∀ (s : QueueState) (j : Nat),
        (onPrintClose s j 0).cooldownMs = 3000
        ∧ (onPrintClose s j 0).bluetoothReset = false)
    ∧ (∀ (s : QueueState) (j : Nat),
        (onPrintClose s j 1).cooldownMs = 15000
        ∧ (onPrintClose s j 1).bluetoothReset = true)
    ∧ (∀ (s : QueueState) (j code : Nat), code ≠ 0 → code ≠ 1 →
        (onPrintClose s j code).cooldownMs = 3000
        ∧ (onPrintClose s j code).bluetoothReset = false)
    ∧ (∀ (s : QueueState) (j : Nat),
        handlePrint s j = ⟨s.isPrinting, s.printQueue, j :: s.active⟩) := by
  refine ⟨?_, ?_, ?_, ?_, ?_, ?_⟩
  · intro s j rest hq hip
    simp [processPrintQueue, hq, hip]
  · intro s hip
    cases hq : s.printQueue with
    | nil => simp [processPrintQueue, hq]
    | cons j rest => simp [processPrintQueue, hq, hip]
  · intro s j
    simp [onPrintClose]
  · intro s j
    simp [onPrintClose]
  · intro s j code hc0 hc1
    simp [onPrintClose, hc0, hc1]
  · intro s j
    rfl

/-- Witness for the amended C4 at concrete states. -/
theorem print_queue_amended_witness :
    processPrintQueue ⟨false, [7], [9]⟩ = ⟨true, [], 7 :: [9]⟩
    ∧ processPrintQueue ⟨true, [3], []⟩ = ⟨true, [3], []⟩
    ∧ ((onPrintClose initialQueueState 0 0).cooldownMs = 3000
        ∧ (onPrintClose initialQueueState 0 0).bluetoothReset = false)
    ∧ ((onPrintClose initialQueueState 0 1).cooldownMs = 15000
        ∧ (onPrintClose initialQueueState 0 1).bluetoothReset = true)
    ∧ ((onPrintClose initialQueueState 0 2).cooldownMs = 3000
        ∧ (onPrintClose initialQueueState 0 2).bluetoothReset = false)
    ∧ handlePrint initialQueueState 4
        = ⟨initialQueueState.isPrinting, initialQueueState.printQueue,
            4 :: initialQueueState.active⟩ :=
  ⟨print_queue_amended.1 ⟨false, [7], [9]⟩ 7 [] rfl rfl,
   print_queue_amended.2.1 ⟨true, [3], []⟩ rfl,
   print_queue_amended.2.2.1 initialQueueState 0,
   print_queue_amended.2.2.2.1 initialQueueState 0,
   print_queue_amended.2.2.2.2.1 initialQueueState 0 2 (by omega) (by omega),
   print_queue_amended.2.2.2.2.2 initialQueueState 4⟩

/-- Claim C9 (code bug in server.js): when a queued print process exits
with code 1 — exactly the transport/link-failure classification — the
`close` handler schedules the Bluetooth reset and the 15s cooldown and then
returns without sending any HTTP response, so the submitter never receives
the job's terminal status; every other completion path sends exactly one
response (200 on exit code 0, 500 otherwise). -/
theorem print_close_response_bug :
    (∀ (s : QueueState) (j : Nat), (onPrintClose s j 1).response = none)
    ∧ (∀ (s : QueueState) (j : Nat), (onPrintClose s j 0).response = some 200)
    ∧ (∀ (s : QueueState) (j code : Nat), code ≠ 0 → code ≠ 1 →
        (onPrintClose s j code).response = some 500) := by
  refine ⟨?_, ?_, ?_⟩
  · intro s j
    simp [onPrintClose]
  · intro s j
    simp [onPrintClose]
  · intro s j code hc0 hc1
    simp [onPrintClose, hc0, hc1]

/-- Witness for C9: on exit code 1 the submitter gets no response; on exit
codes 0 and 2 it gets one. -/
theorem print_close_response_bug_witness :
    (onPrintClose initialQueueState 0 1).response = none
    ∧ (onPrintClose initialQueueState 0 0).response = some 200
    ∧ (onPrintClose initialQueueState 0 2).response = some 500 :=
  ⟨print_close_response_bug.1 initialQueueState 0,
   print_close_response_bug.2.1 initialQueueState 0,
   print_close_response_bug.2.2 initialQueueState 0 2 (by omega) (by omega)⟩

end Catprinter
